import Mathlib

/-!
Shallow embedding of the Iran aftershock-forecast pipeline
(`aftershock_etas.py`) and its validation harness (`test_etas.py`).

Conventions of the embedding:
* floating point magnitudes, times and probabilities are modelled as `ℚ`
  where the code only does field arithmetic and comparisons, and as `ℝ`
  where the code calls transcendental functions (`sin`, `cos`, `log`,
  `exp`, `**`, `sqrt`, `arctan2`);
* event timestamps are rationals measured in days (the code converts
  second-based timestamps to days by dividing by 86400 before using them);
* the external nonlinear solver `scipy.optimize.curve_fit` is an oracle
  parameter of type `List ℕ → Option (ℝ × ℝ × ℝ)`: `some popt` models a
  successful fit, `none` models non-convergence or a raised numerical
  error (both are caught by the bare `except:` in the source).
-/

namespace Aftershock

/-- One catalog row, after the loader dropped rows missing
`time`, `mag`, `lat` or `lon`. -/
structure Event where
  time : ℚ
  mag : ℚ
  lat : ℝ
  lon : ℝ

/-- `M0 = 4.5`, the magnitude completeness constant of `aftershock_etas.py`
(the validation harness uses the same value). -/
def M0 : ℝ := 4.5

/-- `MAX_PROB = 0.97`, the soft probability saturation ceiling. -/
def MAX_PROB : ℝ := 0.97

/-- `TARGET_MAG = 5.0` of `test_etas.py`. -/
def TARGET_MAG : ℚ := 5.0

/-- numpy's `arctan2(y, x)` (four-quadrant arctangent) on reals. -/
noncomputable def arctan2 (y x : ℝ) : ℝ :=
  if 0 < x then Real.arctan (y / x)
  else if x < 0 ∧ 0 ≤ y then Real.arctan (y / x) + Real.pi
  else if x < 0 ∧ y < 0 then Real.arctan (y / x) - Real.pi
  else if x = 0 ∧ 0 < y then Real.pi / 2
  else if x = 0 ∧ y < 0 then -(Real.pi / 2)
  else 0

/-- `haversine(lat1, lon1, lat2, lon2)`: great-circle distance on a sphere
of radius `R = 6371` km; the code first converts all four coordinates from
degrees to radians with `np.radians`. Identical in both source files. -/
noncomputable def haversine (lat1 lon1 lat2 lon2 : ℝ) : ℝ :=
  let R : ℝ := 6371.0
  let lat1r := lat1 * Real.pi / 180
  let lon1r := lon1 * Real.pi / 180
  let lat2r := lat2 * Real.pi / 180
  let lon2r := lon2 * Real.pi / 180
  let dlat := lat2r - lat1r
  let dlon := lon2r - lon1r
  let a := Real.sin (dlat / 2) ^ 2 +
    Real.cos lat1r * Real.cos lat2r * Real.sin (dlon / 2) ^ 2
  2 * R * arctan2 (Real.sqrt a) (Real.sqrt (1 - a))

/-- `omori_rate(t, K, c, p) = K / (c + t) ** p` (real exponentiation). -/
noncomputable def omori_rate (t K c p : ℝ) : ℝ := K / (c + t) ^ p

open Classical in
/-- `integrate_omori(K, c, p, T)` of `aftershock_etas.py`: guard clause
returning `0.0` for `T <= 0 or K <= 0`, then the `|p - 1| < 1e-6`
logarithmic branch, then the general closed-form antiderivative. -/
noncomputable def integrate_omori (K c p T : ℝ) : ℝ :=
  if T ≤ 0 ∨ K ≤ 0 then 0
  else if |p - 1| < 1e-6 then K * Real.log ((c + T) / c)
  else K / (1 - p) * ((c + T) ^ (1 - p) - c ^ (1 - p))

open Classical in
/-- `integrate_omori(K, c, p, T)` of `test_etas.py`: same two branches but
WITHOUT the `T <= 0 or K <= 0` guard clause. -/
noncomputable def integrate_omori_val (K c p T : ℝ) : ℝ :=
  if |p - 1| < 1e-6 then K * Real.log ((c + T) / c)
  else K / (1 - p) * ((c + T) ^ (1 - p) - c ^ (1 - p))

/-- `aki_b_value(mags, Mmin)` of `aftershock_etas.py`: keep magnitudes
`>= Mmin`; if fewer than 30 remain return `1.0`, else return
`0.4343 / (mags.mean() - Mmin)`. All arithmetic is rational, so the
embedding stays in `ℚ` (note Lean's `x / 0 = 0` stands in for the
float division by zero the source would perform when the mean equals
`Mmin`). -/
def aki_b_value (mags : List ℚ) (Mmin : ℚ) : ℚ :=
  let filtered := mags.filter fun m => decide (Mmin ≤ m)
  if filtered.length < 30 then 1
  else (0.4343 : ℚ) / (filtered.sum / (filtered.length : ℚ) - Mmin)

open Classical in
/-- `gr_tail_prob(Mthr, b)` of `aftershock_etas.py`:
`1.0` when `Mthr <= M0`, else `10 ** (-b * (Mthr - M0))`. -/
noncomputable def gr_tail_prob (Mthr b : ℝ) : ℝ :=
  if Mthr ≤ M0 then 1 else (10 : ℝ) ^ (-b * (Mthr - M0))

open Classical in
/-- `gr_tail(Mthr, b)` of `test_etas.py` (same formula, separate copy). -/
noncomputable def gr_tail (Mthr b : ℝ) : ℝ :=
  if Mthr ≤ M0 then 1 else (10 : ℝ) ^ (-b * (Mthr - M0))

open Classical in
/-- `select_region(df, lat, lon, radius_km)`: keep the events whose
haversine distance to `(lat, lon)` is `<= radius_km`, preserving order. -/
noncomputable def select_region (df : List Event) (lat lon radius_km : ℝ) :
    List Event :=
  df.filter fun e => decide (haversine lat lon e.lat e.lon ≤ radius_km)

/-- The daily histogram `np.histogram(days, bins=np.arange(0, 31))` used by
the Omori fit: 30 integer-day bins, all half-open `[i, i+1)` except the
last, which numpy closes at the right edge (`[29, 30]`). `days` is the
event time minus the mainshock time, in days. -/
def omori_hist (after : List Event) (t0 : ℚ) : List ℕ :=
  (List.range 30).map fun i =>
    (after.filter fun e =>
      decide ((i : ℚ) ≤ e.time - t0) &&
        (if i = 29 then decide (e.time - t0 ≤ 30)
         else decide (e.time - t0 < (i : ℚ) + 1))).length

/-- `fit_omori(df, t0)` of `aftershock_etas.py`: keep events strictly after
`t0`; if fewer than 20 remain, return the conservative fallback triple
`(0.3, 0.3, 1.1)` without fitting; otherwise run `curve_fit` (the `solver`
oracle) on the daily histogram, returning its parameters on success and
the same fallback triple when it raises. -/
noncomputable def fit_omori (solver : List ℕ → Option (ℝ × ℝ × ℝ))
    (df : List Event) (t0 : ℚ) : ℝ × ℝ × ℝ :=
  let after := df.filter fun e => decide (t0 < e.time)
  if after.length < 20 then (0.3, 0.3, 1.1)
  else
    match solver (omori_hist after t0) with
    | some popt => popt
    | none => (0.3, 0.3, 1.1)

/-- The inline Omori fit of `test_etas.py` (lines 91-103): no minimum-count
guard; run `curve_fit` on the daily histogram of the events strictly after
`t0`, and fall back to `(0.3, 0.5, 1.1)` only when it raises. -/
noncomputable def fit_omori_val (solver : List ℕ → Option (ℝ × ℝ × ℝ))
    (df : List Event) (t0 : ℚ) : ℝ × ℝ × ℝ :=
  let after := df.filter fun e => decide (t0 < e.time)
  match solver (omori_hist after t0) with
  | some popt => popt
  | none => (0.3, 0.5, 1.1)

/-- The effective intensity of one forecast cell (`aftershock_etas.py`
line 145): `lam = base_rate * gr_tail_prob(Mthr, b_val)` with
`base_rate = integrate_omori(K, c, p, T)`. No clamp is applied here. -/
noncomputable def forecast_lam (K c p b T Mthr : ℝ) : ℝ :=
  integrate_omori K c p T * gr_tail_prob Mthr b

/-- The emitted probability of one forecast cell (`aftershock_etas.py`
lines 148-149): `prob = 1 - exp(-lam)` then `prob = min(prob, MAX_PROB)`. -/
noncomputable def forecast_prob (K c p b T Mthr : ℝ) : ℝ :=
  min (1 - Real.exp (-forecast_lam K c p b T Mthr)) MAX_PROB

/-- The predicted probability of `test_etas.py` (lines 110-112):
`lam = integrate_omori(K, c, p, T) * gr_tail(TARGET_MAG, b)`, then
`lam = min(lam, 2.0)`, then `prob = 1 - exp(-lam)`. -/
noncomputable def predicted_prob (K c p b T : ℝ) : ℝ :=
  1 - Real.exp (-(min (integrate_omori_val K c p T * gr_tail (TARGET_MAG : ℝ) b) 2))

/-- The observed ground-truth boolean of `test_etas.py` (lines 86 and
117-120): `after = regional[regional.time > t0]`, then
`any((after.time <= t0 + T days) & (after.mag >= TARGET_MAG))`. -/
def observed_event (regional : List Event) (t0 T : ℚ) : Bool :=
  (regional.filter fun e => decide (t0 < e.time)).any fun e =>
    decide (e.time ≤ t0 + T) && decide (TARGET_MAG ≤ e.mag)

/-! ### Helper lemmas on the spherical distance -/

theorem arctan2_nonneg {y : ℝ} (x : ℝ) (hy : 0 ≤ y) : 0 ≤ arctan2 y x := by
  unfold arctan2
  split_ifs with h1 h2 h3 h4 h5
  · rw [← Real.arctan_zero]
    exact Real.arctan_strictMono.monotone (div_nonneg hy h1.le)
  · have h := Real.neg_pi_div_two_lt_arctan (y / x)
    have hpi := Real.pi_pos
    linarith
  · exact absurd h3.2 (not_lt.mpr hy)
  · have hpi := Real.pi_pos
    linarith
  · exact absurd h5.2 (not_lt.mpr hy)
  · exact le_refl 0

theorem haversine_self (lat lon : ℝ) : haversine lat lon lat lon = 0 := by
  unfold haversine arctan2
  norm_num [Real.sin_zero, Real.sqrt_zero, Real.sqrt_one, Real.arctan_zero]

theorem haversine_nonneg (lat1 lon1 lat2 lon2 : ℝ) :
    0 ≤ haversine lat1 lon1 lat2 lon2 := by
  unfold haversine
  exact mul_nonneg (by norm_num) (arctan2_nonneg _ (Real.sqrt_nonneg _))

theorem mem_select_region {df : List Event} {lat lon r : ℝ} {e : Event} :
    e ∈ select_region df lat lon r ↔
      e ∈ df ∧ haversine lat lon e.lat e.lon ≤ r := by
  unfold select_region
  simp [List.mem_filter]

/-! ### C3 — region selection at non-positive radius -/

/-- C3 counterexample: the claim "radius ≤ 0 always returns an empty
subset, including for an event coincident with the epicenter" is false at
radius 0: an event at the epicenter is at great-circle distance 0, and
`0 ≤ 0`, so `select_region` keeps it. -/
theorem C3_counterexample :
    haversine 0 0 0 0 = 0 ∧
      select_region [⟨0, 5, 0, 0⟩] 0 0 0 ≠ [] := by
  refine ⟨haversine_self 0 0, ?_⟩
  have h : (⟨0, 5, 0, 0⟩ : Event) ∈ select_region [⟨0, 5, 0, 0⟩] 0 0 0 :=
    mem_select_region.mpr ⟨List.mem_singleton.mpr rfl, by simp [haversine_self]⟩
  exact List.ne_nil_of_mem h

/-- C3 (amended): for every catalog and epicenter, `select_region` with a
strictly negative radius returns the empty subset; at radius exactly 0,
events at zero great-circle distance are retained. -/
theorem C3_select_region_neg_radius (df : List Event) (lat lon r : ℝ)
    (hr : r < 0) : select_region df lat lon r = [] := by
  rw [List.eq_nil_iff_forall_not_mem]
  intro e he
  rcases mem_select_region.mp he with ⟨-, hle⟩
  exact absurd (hle.trans_lt hr) (not_lt.mpr (haversine_nonneg _ _ _ _))

/-- C3 witness: the amended theorem applied to a one-event catalog and
radius `-1`. -/
theorem C3_witness : select_region [⟨0, 5, 0, 0⟩] 0 0 (-1) = [] :=
  C3_select_region_neg_radius [⟨0, 5, 0, 0⟩] 0 0 (-1) (by norm_num)

/-! ### C8 — monotonicity of region selection in the radius -/

/-- C8: region selection is monotone non-decreasing in the radius — every
event selected at radius `r` is selected at any radius `r' ≥ r`. -/
theorem C8_select_region_monotone (df : List Event) (lat lon : ℝ)
    {r r' : ℝ} (hrr : r ≤ r') {e : Event}
    (he : e ∈ select_region df lat lon r) :
    e ∈ select_region df lat lon r' := by
  rcases mem_select_region.mp he with ⟨hdf, hle⟩
  exact mem_select_region.mpr ⟨hdf, hle.trans hrr⟩

/-- C8 witness: an event at the epicenter is selected at radius 0, hence
also at the default radius 250. -/
theorem C8_witness :
    (⟨0, 5, 0, 0⟩ : Event) ∈ select_region [⟨0, 5, 0, 0⟩] 0 0 250 := by
  have h0 : (⟨0, 5, 0, 0⟩ : Event) ∈ select_region [⟨0, 5, 0, 0⟩] 0 0 0 :=
    mem_select_region.mpr ⟨List.mem_singleton.mpr rfl, by simp [haversine_self]⟩
  exact C8_select_region_monotone [⟨0, 5, 0, 0⟩] 0 0 (by norm_num) h0

/-! ### C4 — rate-integral guard clause -/

/-- C4 counterexample: the claim extends the `T ≤ 0 ∨ K ≤ 0 → 0` guard to
the validation-harness implementation, but `integrate_omori` of
`test_etas.py` has no such guard: at `(K, c, p, T) = (1, 1, 2, -1/2)` we
have `T ≤ 0`, yet it returns `-1`, not `0`. -/
theorem C4_counterexample :
    (-(1 / 2) : ℝ) ≤ 0 ∧ integrate_omori_val 1 1 2 (-(1 / 2)) ≠ 0 := by
  refine ⟨by norm_num, ?_⟩
  have h : integrate_omori_val 1 1 2 (-(1 / 2)) = -1 := by
    unfold integrate_omori_val
    rw [if_neg (by rw [show ((2 : ℝ) - 1) = 1 by norm_num, abs_one]; norm_num)]
    rw [show ((1 : ℝ) + -(1 / 2)) = 1 / 2 by norm_num,
      show ((1 : ℝ) - 2) = ((-1 : ℤ) : ℝ) by norm_num,
      Real.rpow_intCast, Real.rpow_intCast]
    norm_num
  rw [h]; norm_num

/-- C4 (amended): the forecast-pipeline `integrate_omori` returns exactly
0 whenever `T ≤ 0` or `K ≤ 0`; the validation-harness implementation lacks
this guard. -/
theorem C4_integrate_omori_guard (K c p T : ℝ) (h : T ≤ 0 ∨ K ≤ 0) :
    integrate_omori K c p T = 0 := by
  unfold integrate_omori
  rw [if_pos h]

/-- C4 witness: the guard applied at `(K, c, p, T) = (1, 1, 2, -1/2)`,
the very input on which the unguarded validation copy returns `-1`. -/
theorem C4_witness : integrate_omori 1 1 2 (-(1 / 2)) = 0 :=
  C4_integrate_omori_guard 1 1 2 (-(1 / 2)) (Or.inl (by norm_num))

/-! ### C5 — output-probability clamp of the forecast pipeline -/

/-- C5: every emitted forecast probability is `min (1 - exp (-λ)) 0.97`
for the unclamped intensity `λ`, hence never exceeds the ceiling `0.97`;
and whenever the unclamped probability is below the ceiling it is emitted
unchanged, i.e. the clamp acts only on the output probability, never on
`λ` itself. -/
theorem C5_forecast_prob_clamp (K c p b T Mthr : ℝ) :
    forecast_prob K c p b T Mthr ≤ 0.97 ∧
      (1 - Real.exp (-forecast_lam K c p b T Mthr) ≤ 0.97 →
        forecast_prob K c p b T Mthr =
          1 - Real.exp (-forecast_lam K c p b T Mthr)) := by
  constructor
  · unfold forecast_prob MAX_PROB
    exact min_le_right _ _
  · intro h
    unfold forecast_prob MAX_PROB
    exact min_eq_left h

/-- C5 witness: at `K = 0` the integrated rate vanishes, the unclamped
probability is `0 ≤ 0.97`, and the emitted value is exactly the unclamped
probability. -/
theorem C5_witness :
    forecast_prob 0 1 2 1 1 5 = 1 - Real.exp (-forecast_lam 0 1 2 1 1 5) ∧
      forecast_prob 0 1 2 1 1 5 ≤ 0.97 := by
  have hl : forecast_lam 0 1 2 1 1 5 = 0 := by
    unfold forecast_lam integrate_omori
    rw [if_pos (Or.inr le_rfl), zero_mul]
  exact ⟨(C5_forecast_prob_clamp 0 1 2 1 1 5).2
      (by rw [hl]; norm_num [Real.exp_zero]),
    (C5_forecast_prob_clamp 0 1 2 1 1 5).1⟩

/-! ### C10 — intensity clamp of the validation harness -/

/-- C10: the validation harness clamps the effective intensity at `2.0`
before the probability conversion, so every predicted probability is at
most `1 - exp (-2)` — a strictly lower ceiling than the forecast
pipeline's `0.97`. -/
theorem C10_predicted_prob_ceiling (K c p b T : ℝ) :
    predicted_prob K c p b T ≤ 1 - Real.exp (-2) ∧
      1 - Real.exp (-2) < 0.97 := by
  constructor
  · unfold predicted_prob
    have hmin :
        min (integrate_omori_val K c p T * gr_tail (TARGET_MAG : ℝ) b) 2 ≤ 2 :=
      min_le_right _ _
    have hexp := Real.exp_le_exp.mpr (neg_le_neg hmin)
    linarith
  · have he2 : Real.exp 2 = Real.exp 1 * Real.exp 1 := by
      rw [← Real.exp_add]; norm_num
    have h2 : Real.exp 2 < 100 / 3 := by
      have h := Real.exp_one_lt_d9
      have hp := Real.exp_pos 1
      rw [he2]; nlinarith
    have hpos := Real.exp_pos 2
    have hc : Real.exp 2 * (Real.exp 2)⁻¹ = 1 := mul_inv_cancel₀ hpos.ne'
    rw [Real.exp_neg]
    nlinarith

/-! ### Helper lemmas on the b-value estimator -/

theorem replicate_filter_ge (n : ℕ) (a c : ℚ) (h : c ≤ a) :
    (List.replicate n a).filter (fun m => decide (c ≤ m)) = List.replicate n a :=
  List.filter_eq_self.mpr fun b hb => by
    rw [List.eq_of_mem_replicate hb]; exact decide_eq_true h

theorem aki_b_value_replicate (n : ℕ) (hn : 30 ≤ n) (a c : ℚ) (h : c ≤ a) :
    aki_b_value (List.replicate n a) c = 0.4343 / (a - c) := by
  unfold aki_b_value
  rw [replicate_filter_ge n a c h]
  simp only [List.length_replicate, List.sum_replicate]
  have hn0 : ((n : ℚ)) ≠ 0 := Nat.cast_ne_zero.mpr (by omega)
  rw [if_neg (not_lt.mpr hn), nsmul_eq_mul, mul_div_cancel_left₀ _ hn0]

/-- `ln 10` exceeds `10000/4343`, i.e. the source constant `0.4343`
strictly exceeds `1 / ln 10 = 0.43429448…`. Proved through
`exp (10000/4343) < 10` via a six-term Taylor bound on
`exp (1314/4343)` and the decimal bound on `exp 1`. -/
theorem log_ten_gt : (10000 / 4343 : ℝ) < Real.log 10 := by
  have hr1 : (0 : ℝ) ≤ 1314 / 4343 := by norm_num
  have hr2 : (1314 / 4343 : ℝ) ≤ 1 := by norm_num
  have hb := @Real.exp_bound' (1314 / 4343 : ℝ) hr1 hr2 6 (by norm_num)
  have h2 : Real.exp (1314 / 4343) ≤ 1.35332 := by
    refine hb.trans ?_
    simp only [Finset.sum_range_succ, Finset.sum_range_zero, Nat.factorial]
    norm_num
  have hexp : Real.exp (10000 / 4343) < 10 := by
    have hadd : Real.exp (10000 / 4343 : ℝ) =
        Real.exp 1 * Real.exp 1 * Real.exp (1314 / 4343) := by
      rw [← Real.exp_add, ← Real.exp_add]; norm_num
    have h1 : Real.exp 1 * Real.exp 1 < 7.3890562 := by
      have h := Real.exp_one_lt_d9
      have hp := Real.exp_pos 1
      nlinarith
    have hposr := Real.exp_pos (1314 / 4343 : ℝ)
    have hpos2 : (0 : ℝ) < Real.exp 1 * Real.exp 1 :=
      mul_pos (Real.exp_pos 1) (Real.exp_pos 1)
    rw [hadd]
    nlinarith
  exact (Real.lt_log_iff_exp_lt (by norm_num)).mpr hexp

/-! ### C1 — the degenerate case mean = M0 is NOT intercepted -/

/-- C1: evidence for the missing guard. On a sample of 30 magnitudes all
equal to `M0 = 4.5`, the filtered count meets the minimum (30), the
filtered mean equals `M0`, and `aki_b_value` does NOT return the fallback
`1.0`: the `0.4343 / (mean - Mmin)` division is reached with a zero
denominator (the Python source divides by float zero and propagates the
result; the rational embedding renders that division as `x / 0`). -/
theorem C1_aki_b_value_unguarded :
    ((List.replicate 30 ((9 : ℚ) / 2)).filter fun m =>
        decide ((9 : ℚ) / 2 ≤ m)).length = 30 ∧
      ((List.replicate 30 ((9 : ℚ) / 2)).filter fun m =>
            decide ((9 : ℚ) / 2 ≤ m)).sum /
          ((((List.replicate 30 ((9 : ℚ) / 2)).filter fun m =>
            decide ((9 : ℚ) / 2 ≤ m)).length : ℚ)) = (9 : ℚ) / 2 ∧
      aki_b_value (List.replicate 30 ((9 : ℚ) / 2)) ((9 : ℚ) / 2) ≠ 1 := by
  refine ⟨?_, ?_, ?_⟩
  · rw [replicate_filter_ge 30 _ _ le_rfl, List.length_replicate]
  · rw [replicate_filter_ge 30 _ _ le_rfl]
    simp only [List.length_replicate, List.sum_replicate, nsmul_eq_mul]
    norm_num
  · rw [aki_b_value_replicate 30 le_rfl _ _ le_rfl]
    norm_num

/-! ### C6 — the Aki estimator formula -/

/-- C6 counterexample: on 30 magnitudes `5.5` with `Mmin = 4.5` the code
returns the literal `0.4343`, which differs from the claimed exact Aki
value `(1 / ln 10) / (mean - M0) = 1 / ln 10 = 0.43429448…`. -/
theorem C6_counterexample :
    ((aki_b_value (List.replicate 30 ((11 : ℚ) / 2)) ((9 : ℚ) / 2) : ℚ) : ℝ) ≠
      1 / Real.log 10 / (((11 : ℝ) / 2) - (9 : ℝ) / 2) := by
  have hcode :
      aki_b_value (List.replicate 30 ((11 : ℚ) / 2)) ((9 : ℚ) / 2) =
        4343 / 10000 := by
    rw [aki_b_value_replicate 30 le_rfl _ _ (by norm_num)]; norm_num
  rw [hcode]
  have hlog := log_ten_gt
  have hlogpos : (0 : ℝ) < Real.log 10 := lt_trans (by norm_num) hlog
  have hsimp : 1 / Real.log 10 / (((11 : ℝ) / 2) - (9 : ℝ) / 2) =
      1 / Real.log 10 := by norm_num
  rw [hsimp]
  have h2 : 1 / Real.log 10 < 4343 / 10000 := by
    rw [div_lt_iff₀ hlogpos]
    nlinarith
  push_cast
  exact h2.ne'

/-- C6 (amended): if fewer than 30 magnitudes survive the `≥ Mmin` filter
the estimator returns the fallback `1.0`; otherwise it returns
`0.4343 / (mean(filtered) - Mmin)`, with the literal `0.4343` standing in
for `1 / ln 10`. -/
theorem C6_aki_b_value_spec (mags : List ℚ) (Mmin : ℚ) :
    ((mags.filter fun m => decide (Mmin ≤ m)).length < 30 →
        aki_b_value mags Mmin = 1) ∧
      (30 ≤ (mags.filter fun m => decide (Mmin ≤ m)).length →
        aki_b_value mags Mmin =
          0.4343 / ((mags.filter fun m => decide (Mmin ≤ m)).sum /
            (((mags.filter fun m => decide (Mmin ≤ m)).length : ℚ)) - Mmin)) := by
  unfold aki_b_value
  exact ⟨fun h => if_pos h, fun h => if_neg (not_lt.mpr h)⟩

/-- C6 witness: the amended theorem applied to the empty sample (fallback
branch) and to 30 magnitudes `5.5` over `Mmin = 4.5` (estimator branch,
where the emitted value evaluates to `0.4343`). -/
theorem C6_witness :
    aki_b_value [] ((9 : ℚ) / 2) = 1 ∧
      aki_b_value (List.replicate 30 ((11 : ℚ) / 2)) ((9 : ℚ) / 2) =
        4343 / 10000 := by
  have h30 : 30 ≤ ((List.replicate 30 ((11 : ℚ) / 2)).filter fun m =>
      decide ((9 : ℚ) / 2 ≤ m)).length := by
    rw [replicate_filter_ge 30 _ _ (by norm_num), List.length_replicate]
  constructor
  · exact (C6_aki_b_value_spec [] ((9 : ℚ) / 2)).1 (by simp)
  · rw [(C6_aki_b_value_spec (List.replicate 30 ((11 : ℚ) / 2)) ((9 : ℚ) / 2)).2 h30,
      replicate_filter_ge 30 _ _ (by norm_num)]
    simp only [List.length_replicate, List.sum_replicate, nsmul_eq_mul]
    norm_num

/-! ### Helper lemma for building catalogs with many aftershocks -/

theorem replicate_filter_time_pos (n : ℕ) :
    (List.replicate n (⟨1, 5, 0, 0⟩ : Event)).filter
      (fun e => decide ((0 : ℚ) < e.time)) = List.replicate n ⟨1, 5, 0, 0⟩ :=
  List.filter_eq_self.mpr fun b hb => by
    rw [List.eq_of_mem_replicate hb]; exact decide_eq_true (by norm_num)

/-! ### C2 — the decay fit carries no status tag -/

/-- C2 counterexample: the two fallback causes are NOT distinguishable
from the result of `fit_omori`. A catalog with 20 post-mainshock events on
which the solver raises (optimizer-failure cause) and a catalog with 0
post-mainshock events (insufficient-data cause) produce the identical bare
triple — `fit_omori` returns no status value of any kind. -/
theorem C2_counterexample :
    20 ≤ ((List.replicate 20 (⟨1, 5, 0, 0⟩ : Event)).filter fun e =>
        decide ((0 : ℚ) < e.time)).length ∧
      (([] : List Event).filter fun e => decide ((0 : ℚ) < e.time)).length < 20 ∧
      fit_omori (fun _ => none) (List.replicate 20 ⟨1, 5, 0, 0⟩) 0 =
        fit_omori (fun _ => none) [] 0 := by
  have h1 : ((List.replicate 20 (⟨1, 5, 0, 0⟩ : Event)).filter fun e =>
      decide ((0 : ℚ) < e.time)).length = 20 := by
    rw [replicate_filter_time_pos 20, List.length_replicate]
  refine ⟨le_of_eq h1.symm, by simp, ?_⟩
  simp only [fit_omori, h1, List.filter_nil, List.length_nil]
  norm_num

/-- C2 (amended): `fit_omori` returns a bare `(K, c, p)` triple with no
status tag; an optimizer-failure fallback on one input and an
insufficient-data fallback on another yield equal results, so a caller
cannot tell the two fallback causes apart from the returned value. -/
theorem C2_fit_omori_no_status (df1 df2 : List Event) (t0 : ℚ)
    (solver : List ℕ → Option (ℝ × ℝ × ℝ))
    (h1 : 20 ≤ (df1.filter fun e => decide (t0 < e.time)).length)
    (h2 : (df2.filter fun e => decide (t0 < e.time)).length < 20) :
    fit_omori (fun _ => none) df1 t0 = fit_omori solver df2 t0 := by
  simp only [fit_omori]
  rw [if_neg (not_lt.mpr h1), if_pos h2]

/-- C2 witness: the indistinguishability theorem applied to a 20-event
catalog with a raising solver versus an empty catalog with a succeeding
solver. -/
theorem C2_witness :
    fit_omori (fun _ => none) (List.replicate 20 ⟨1, 5, 0, 0⟩) 0 =
      fit_omori (fun _ => some (2, 2, 2)) [] 0 := by
  refine C2_fit_omori_no_status _ _ 0 _ ?_ ?_
  · rw [replicate_filter_time_pos 20, List.length_replicate]
  · simp

/-! ### C7 — fallback triples of the two decay-fit implementations -/

/-- C7 counterexample: the validation-harness fit does NOT skip fitting
when the post-mainshock count is below 20 (with 0 events it still consults
the solver and returns its parameters), and its failure fallback
`(0.3, 0.5, 1.1)` differs from the forecast pipeline's `(0.3, 0.3, 1.1)`. -/
theorem C7_counterexample :
    fit_omori_val (fun _ => some (1, 1, 1)) [] 0 = (1, 1, 1) ∧
      fit_omori_val (fun _ => none) [] 0 = (0.3, 0.5, 1.1) ∧
      ((0.3, 0.5, 1.1) : ℝ × ℝ × ℝ) ≠ (0.3, 0.3, 1.1) := by
  refine ⟨rfl, rfl, ?_⟩
  norm_num [Prod.ext_iff]

/-- C7 (amended): the forecast-pipeline `fit_omori` returns the fallback
`(0.3, 0.3, 1.1)` whenever fewer than 20 events follow the mainshock
(without consulting the solver) and the same triple whenever the solver
raises; the validation harness has no minimum-count skip and falls back to
`(0.3, 0.5, 1.1)` only when the solver raises. -/
theorem C7_fit_omori_fallbacks (solver : List ℕ → Option (ℝ × ℝ × ℝ))
    (df : List Event) (t0 : ℚ) :
    ((df.filter fun e => decide (t0 < e.time)).length < 20 →
        fit_omori solver df t0 = (0.3, 0.3, 1.1)) ∧
      fit_omori (fun _ => none) df t0 = (0.3, 0.3, 1.1) ∧
      fit_omori_val (fun _ => none) df t0 = (0.3, 0.5, 1.1) := by
  refine ⟨fun h => ?_, ?_, ?_⟩
  · simp only [fit_omori]
    rw [if_pos h]
  · simp only [fit_omori]
    split <;> rfl
  · rfl

/-- C7 witness: with an empty catalog the forecast fit ignores even a
succeeding solver and returns the conservative fallback. -/
theorem C7_witness :
    fit_omori (fun _ => some (1, 1, 1)) [] 0 = (0.3, 0.3, 1.1) :=
  (C7_fit_omori_fallbacks (fun _ => some (1, 1, 1)) [] 0).1 (by simp)

/-! ### C9 — ground-truth scan of the validation harness -/

/-- C9 counterexample: an event at exactly the origin time with magnitude
`6 ≥ TARGET_MAG` lies inside the claimed closed window `[t0, t0 + T]`,
yet the harness's observed boolean is `false` — the scan uses the strict
lower bound `time > t0`. -/
theorem C9_counterexample :
    observed_event [⟨0, 6, 0, 0⟩] 0 7 = false ∧
      (0 : ℚ) ≤ 0 ∧ (0 : ℚ) ≤ 0 + 7 ∧ TARGET_MAG ≤ (6 : ℚ) := by
  exact ⟨rfl, le_rfl, by norm_num, by norm_num [TARGET_MAG]⟩

/-- C9 (amended): the observed ground-truth boolean is true iff the
regional subset contains an event with magnitude ≥ `TARGET_MAG` whose
time lies in the half-open interval `(t0, t0 + T]` — strictly after the
origin time (the mainshock itself is excluded), up to and including the
window's end. -/
theorem C9_observed_iff (regional : List Event) (t0 T : ℚ) :
    observed_event regional t0 T = true ↔
      ∃ e ∈ regional, t0 < e.time ∧ e.time ≤ t0 + T ∧ TARGET_MAG ≤ e.mag := by
  unfold observed_event
  simp only [List.any_eq_true, List.mem_filter, decide_eq_true_eq, Bool.and_eq_true]
  constructor
  · rintro ⟨e, ⟨h1, h2⟩, h3, h4⟩
    exact ⟨e, h1, h2, h3, h4⟩
  · rintro ⟨e, h1, h2, h3, h4⟩
    exact ⟨e, ⟨h1, h2⟩, h3, h4⟩

end Aftershock
